import Mathlib

set_option maxRecDepth 10000

/-!
Verification of the go-gorm-spanner dialect adapter.

This file shallowly embeds the Go sources of the repository:

* `clause/returning.go` — the `Returning` clause (`Name`, `Build`,
  `MergeClause`), modelled over an explicit string-accumulating builder
  with the dialect's backtick identifier quoting.
* The DDL generation exercised by `migrator_with_mockserver_test.go`
  (`AutoMigrate` emitting `CREATE TABLE` / `CREATE INDEX` statements in a
  single batched `UpdateDatabaseDdl` request).  The migrator source itself
  is not part of the source tree, so those definitions are modelled from
  the specification and checked against the exact fixture strings of the
  mock-server test.
* The error pass-through, `OnConflict` rejection and connection
  configuration surface described by the specification and the README.
-/

namespace SpannerGorm

/-- A column reference as used by the ORM's clause package; the dialect
only uses the column name when quoting. -/
structure Column where
  Name : String
deriving DecidableEq, Repr

/-- Backtick quoting of identifiers used by the Spanner dialect
(`WriteQuoted`): the identifier is wrapped in backticks. -/
def quoteColumn (c : Column) : String := "`" ++ c.Name ++ "`"

/-- Embedding of the `Returning` struct of `clause/returning.go`. -/
structure Returning where
  Columns : List Column
deriving DecidableEq, Repr

/-- `Returning.Name` from `clause/returning.go`: the clause keyword. -/
def Returning.Name (_returning : Returning) : String := "THEN RETURN"

/-- The column-writing loop of `Returning.Build`: before every column
except the first (index `idx > 0`) a comma byte is written, then the
quoted column. -/
def buildColumns : List Column → Nat → String
  | [], _ => ""
  | c :: rest, idx =>
      (if idx > 0 then "," else "") ++ quoteColumn c ++ buildColumns rest (idx + 1)

/-- `Returning.Build` from `clause/returning.go`, as the string the
builder accumulates: with at least one column the comma-separated quoted
columns are written, otherwise the single byte `*`. -/
def Returning.Build (returning : Returning) : String :=
  if returning.Columns.length > 0 then
    buildColumns returning.Columns 0
  else
    "*"

/-- The expression slot of an ORM clause: empty (`nil`), a `Returning`,
or some other expression type (which the type assertion in `MergeClause`
rejects). -/
inductive Expression where
  | null : Expression
  | ret : Returning → Expression
  | other : Nat → Expression
deriving DecidableEq, Repr

/-- The fields of the ORM's `clause.Clause` that `MergeClause` touches:
its name and its expression slot. -/
structure Clause where
  Name : String
  Expression : Expression
deriving DecidableEq, Repr

/-- `Returning.MergeClause` from `clause/returning.go`: when the clause's
current expression is a `Returning`, its columns are prepended to the
receiver's columns; the clause's expression is then set to the receiver. -/
def Returning.MergeClause (returning : Returning) (c : Clause) : Clause :=
  match c.Expression with
  | Expression.ret v =>
      { c with Expression := Expression.ret ⟨v.Columns ++ returning.Columns⟩ }
  | _ => { c with Expression := Expression.ret returning }

/-- Modelled from the spec: the migrator source (`migrator.go` /
`spanner.go`) is not part of the source tree; the Go field types used by
the models of the mock-server test.  `deletedAt` is `gorm.DeletedAt`, a
nullable timestamp carrying an index. -/
inductive GoType where
  | uint : GoType
  | timeTime : GoType
  | str : GoType
  | boolean : GoType
  | deletedAt : GoType
deriving DecidableEq, Repr

/-- Modelled from the spec: the dialect's column-type vocabulary —
`INT64` for `uint`, `TIMESTAMP` for `time.Time` (and `gorm.DeletedAt`),
`STRING(MAX)` for `string`, `BOOL` for `bool`. -/
def columnType : GoType → String
  | GoType.uint => "INT64"
  | GoType.timeTime => "TIMESTAMP"
  | GoType.str => "STRING(MAX)"
  | GoType.boolean => "BOOL"
  | GoType.deletedAt => "TIMESTAMP"

/-- A persisted field of a reflected model: column name and Go type. -/
structure Field where
  name : String
  goType : GoType
deriving DecidableEq, Repr

/-- A foreign-key constraint of a reflected model. -/
structure ForeignKey where
  name : String
  column : String
  refTable : String
  refColumn : String
deriving DecidableEq, Repr

/-- A reflected model: table name, persisted fields in struct-field
declaration order, foreign keys, primary-key column, indexed columns. -/
structure Model where
  table : String
  fields : List Field
  foreignKeys : List ForeignKey
  primaryKey : String
  indexes : List String
deriving DecidableEq, Repr

/-- Backtick quoting of an identifier, as the dialect's `QuoteTo`. -/
def quoteId (s : String) : String := "`" ++ s ++ "`"

/-- Modelled from the spec: the column clause emitted for one persisted
field — quoted column name, a space, the dialect's type name. -/
def columnClause (f : Field) : String :=
  quoteId f.name ++ " " ++ columnType f.goType

/-- Modelled from the spec: the foreign-key constraint clause. -/
def fkClause (fk : ForeignKey) : String :=
  "CONSTRAINT " ++ quoteId fk.name ++ " FOREIGN KEY (" ++ quoteId fk.column ++
    ") REFERENCES " ++ quoteId fk.refTable ++ "(" ++ quoteId fk.refColumn ++ ")"

/-- Modelled from the spec: the `CREATE TABLE` statement emitted for a
model — column clauses in field order, then foreign-key clauses, comma
separated, then the trailing `PRIMARY KEY` clause. -/
def createTableDDL (m : Model) : String :=
  "CREATE TABLE " ++ quoteId m.table ++ " (" ++
    String.intercalate "," (m.fields.map columnClause ++ m.foreignKeys.map fkClause) ++
    ") PRIMARY KEY (" ++ quoteId m.primaryKey ++ ")"

/-- Modelled from the spec: the `CREATE INDEX` statement emitted for an
indexed column of a model. -/
def createIndexDDL (m : Model) (col : String) : String :=
  "CREATE INDEX " ++ quoteId ("idx_" ++ m.table ++ "_" ++ col) ++ " ON " ++
    quoteId m.table ++ "(" ++ quoteId col ++ ")"

/-- The DDL statements emitted for one model: its `CREATE TABLE`
statement followed by its `CREATE INDEX` statements. -/
def modelStatements (m : Model) : List String :=
  createTableDDL m :: m.indexes.map (createIndexDDL m)

/-- The DDL statements emitted for a list of models, in model order. -/
def ddlStatements (ms : List Model) : List String :=
  (ms.map modelStatements).flatten

/-- A batched `UpdateDatabaseDdl` request. -/
structure UpdateDatabaseDdlRequest where
  statements : List String
deriving DecidableEq, Repr

/-- Modelled from the spec: `AutoMigrate` sends all generated DDL in a
single batched `UpdateDatabaseDdl` request. -/
def autoMigrate (ms : List Model) : List UpdateDatabaseDdlRequest :=
  [⟨ddlStatements ms⟩]

/-- The `singer` model of `migrator_with_mockserver_test.go`:
`gorm.Model` (ID, CreatedAt, UpdatedAt, DeletedAt) plus FirstName,
LastName, FullName, Active. -/
def singerModel : Model where
  table := "singers"
  fields :=
    [⟨"id", GoType.uint⟩, ⟨"created_at", GoType.timeTime⟩,
     ⟨"updated_at", GoType.timeTime⟩, ⟨"deleted_at", GoType.deletedAt⟩,
     ⟨"first_name", GoType.str⟩, ⟨"last_name", GoType.str⟩,
     ⟨"full_name", GoType.str⟩, ⟨"active", GoType.boolean⟩]
  foreignKeys := []
  primaryKey := "id"
  indexes := ["deleted_at"]

/-- The `album` model of `migrator_with_mockserver_test.go`:
`gorm.Model` plus Title, SingerID and a `Singer` association emitting a
foreign key. -/
def albumModel : Model where
  table := "albums"
  fields :=
    [⟨"id", GoType.uint⟩, ⟨"created_at", GoType.timeTime⟩,
     ⟨"updated_at", GoType.timeTime⟩, ⟨"deleted_at", GoType.deletedAt⟩,
     ⟨"title", GoType.str⟩, ⟨"singer_id", GoType.uint⟩]
  foreignKeys := [⟨"fk_albums_singer", "singer_id", "singers", "id"⟩]
  primaryKey := "id"
  indexes := ["deleted_at"]

/-- Modelled from the spec: Go error values as surfaced by the underlying
client library and the ORM (the adapter's execution path is not part of
the source tree) — deadline exceeded, status errors with a code and
message, connection errors, and `%w`-style wrapped errors. -/
inductive GoError where
  | deadlineExceeded : GoError
  | status : Nat → String → GoError
  | connectionError : String → GoError
  | wrapped : String → GoError → GoError
deriving DecidableEq, Repr

/-- `errors.Is`: whether any error in the wrap chain equals the target. -/
def errorsIs : GoError → GoError → Bool
  | GoError.wrapped m cause, target =>
      GoError.wrapped m cause == target || errorsIs cause target
  | e, target => e == target

/-- Modelled from the spec: the adapter executes an operation by
delegating to the underlying client library and the ORM and returns their
result to the caller unchanged, without wrapping or translating errors
(spec section 7). -/
def adapterExec {α : Type} (clientResult : Except GoError α) :
    Except GoError α :=
  clientResult

/-- Modelled from the spec: a create statement, carrying the row to
insert and whether the ORM attached an `OnConflict` clause (auto-saved
associations attach one implicitly). -/
structure CreateStatement where
  hasOnConflict : Bool
  row : Nat
deriving DecidableEq, Repr

/-- Modelled from the spec: Cloud Spanner has no upsert — a `Create` that
carries an `OnConflict` clause returns an error and neither inserts nor
updates; otherwise the row is appended to the table. -/
def createWithClauses (db : List Nat) (stmt : CreateStatement) :
    Except GoError (List Nat) :=
  if stmt.hasOnConflict then
    Except.error (GoError.status 9 "OnConflict clauses are not supported")
  else
    Except.ok (db ++ [stmt.row])

/-- The adapter's `Config` struct: driver name and data-source name. -/
structure Config where
  DriverName : String
  DSN : String
deriving DecidableEq, Repr

/-- The honored subset of `gorm.Config`. -/
structure GormConfig where
  PrepareStmt : Bool
deriving DecidableEq, Repr

/-- An open connection: driver, target database, preparation flag. -/
structure Connection where
  driverName : String
  database : String
  prepareStmt : Bool
deriving DecidableEq, Repr

/-- Modelled from the spec: `gorm.Open` with the Spanner dialect opens a
connection with the configured driver name against the configured DSN,
honoring the statement-preparation flag; an unknown driver fails. -/
def gormOpen (cfg : Config) (gcfg : GormConfig) : Except GoError Connection :=
  if cfg.DriverName = "spanner" then
    Except.ok ⟨cfg.DriverName, cfg.DSN, gcfg.PrepareStmt⟩
  else
    Except.error (GoError.status 3 ("unknown driver " ++ cfg.DriverName))

/-- Modelled from the spec: the database a statement executed on a
connection is directed to. -/
def statementTarget (conn : Connection) (_stmt : String) : String :=
  conn.database

/-- C3: For every `Returning` value, `Name()` returns exactly the string
"THEN RETURN". -/
theorem returning_name_is_then_return (r : Returning) :
    r.Name = "THEN RETURN" := rfl

theorem buildColumns_shift (cs : List Column) :
    ∀ n, buildColumns cs (n + 1) = buildColumns cs 1 := by
  induction cs with
  | nil => intro n; rfl
  | cons c rest ih =>
      intro n
      simp only [buildColumns, ih (n + 1), ih 1, Nat.succ_pos, if_pos]

theorem intercalate_go_buildColumns (cs : List Column) : ∀ acc : String,
    String.intercalate.go acc "," (cs.map quoteColumn) = acc ++ buildColumns cs 1 := by
  induction cs with
  | nil => intro acc; show acc = acc ++ ""; rw [String.append_empty]
  | cons c rest ih =>
      intro acc
      show String.intercalate.go (acc ++ "," ++ quoteColumn c) ","
            (rest.map quoteColumn) = _
      rw [ih]
      simp only [buildColumns, buildColumns_shift rest 1]
      simp [String.append_assoc]

/-- C4: For every `Returning` value with a non-empty `Columns` list,
`Build` writes exactly the quoted column names in list order separated by
single commas (no leading or trailing comma, nothing else): the built
string is the comma-intercalation of the quoted column names. -/
theorem returning_build_nonempty (r : Returning) (h : r.Columns ≠ []) :
    r.Build = String.intercalate "," (r.Columns.map quoteColumn) := by
  match r, h with
  | ⟨c :: rest⟩, _ =>
      simp only [Returning.Build, List.length_cons, Nat.succ_pos, if_pos,
        List.map_cons]
      show (if (0:Nat) > 0 then "," else "") ++ quoteColumn c ++
            buildColumns rest (0 + 1) =
          String.intercalate.go (quoteColumn c) "," (List.map quoteColumn rest)
      rw [intercalate_go_buildColumns]
      simp

/-- Witness for C4 at a concrete two-column input. -/
theorem returning_build_nonempty_witness :
    Returning.Build ⟨[⟨"id"⟩, ⟨"name"⟩]⟩ = "`id`,`name`" :=
  (returning_build_nonempty ⟨[⟨"id"⟩, ⟨"name"⟩]⟩ (by decide)).trans (by decide)

/-- C9: For every `Returning` whose `Columns` list is empty, `Build`
writes exactly the single byte `*`, and the built fragment is never empty
for any input. -/
theorem returning_build_empty_star :
    (∀ r : Returning, r.Columns = [] → r.Build = "*") ∧
    (∀ r : Returning, r.Build ≠ "") := by
  constructor
  · intro r h
    match r, h with
    | ⟨[]⟩, _ => rfl
  · intro r
    match r with
    | ⟨[]⟩ => decide
    | ⟨c :: rest⟩ =>
        intro h
        have hl := congrArg String.length h
        simp [Returning.Build, buildColumns, quoteColumn,
          String.length_append] at hl
        exact absurd hl.1.1.1 (by decide)

/-- Witness for C9 at the concrete empty-columns input. -/
theorem returning_build_empty_star_witness :
    Returning.Build ⟨[]⟩ = "*" ∧ Returning.Build ⟨[]⟩ ≠ "" :=
  ⟨returning_build_empty_star.1 ⟨[]⟩ rfl, returning_build_empty_star.2 ⟨[]⟩⟩

/-- C8: Merging a `Returning` with column list `B` into a clause whose
expression is a `Returning` with column list `A` yields a `Returning`
whose columns are exactly `A ++ B`, so merging is list concatenation and
length is additive. -/
theorem returning_merge_concat (A B : List Column) (nm : String) :
    (Returning.mk B).MergeClause ⟨nm, Expression.ret ⟨A⟩⟩ =
      ⟨nm, Expression.ret ⟨A ++ B⟩⟩ ∧
    (A ++ B).length = A.length + B.length :=
  ⟨rfl, List.length_append A B⟩

/-- C10: Merging a `Returning` into a clause whose expression is empty
(`nil`) or not a `Returning` sets the expression to the merged
`Returning` itself, columns unchanged; the previous expression is
discarded. -/
theorem returning_merge_overwrite (B : List Column) (nm : String) (t : Nat) :
    (Returning.mk B).MergeClause ⟨nm, Expression.null⟩ =
      ⟨nm, Expression.ret ⟨B⟩⟩ ∧
    (Returning.mk B).MergeClause ⟨nm, Expression.other t⟩ =
      ⟨nm, Expression.ret ⟨B⟩⟩ :=
  ⟨rfl, rfl⟩

/-- C1: the emitted `CREATE TABLE` statement has one column clause per
persisted field in declaration order, with the dialect's type names
(`INT64` for uint, `TIMESTAMP` for time.Time, `STRING(MAX)` for string,
`BOOL` for bool), backtick-quoted identifiers, foreign-key clauses after
the columns, and a trailing `PRIMARY KEY` clause; on the mock-server
test's models it reproduces the fixture statements exactly. -/
theorem create_table_ddl_shape :
    columnType GoType.uint = "INT64" ∧
    columnType GoType.timeTime = "TIMESTAMP" ∧
    columnType GoType.str = "STRING(MAX)" ∧
    columnType GoType.boolean = "BOOL" ∧
    (∀ f : Field, columnClause f = quoteId f.name ++ " " ++ columnType f.goType) ∧
    (∀ m : Model, (m.fields.map columnClause).length = m.fields.length) ∧
    (∀ m : Model, createTableDDL m =
      "CREATE TABLE " ++ quoteId m.table ++ " (" ++
        String.intercalate ","
          (m.fields.map columnClause ++ m.foreignKeys.map fkClause) ++
        ") PRIMARY KEY (" ++ quoteId m.primaryKey ++ ")") ∧
    createTableDDL singerModel =
      "CREATE TABLE `singers` (`id` INT64,`created_at` TIMESTAMP,`updated_at` TIMESTAMP,`deleted_at` TIMESTAMP,`first_name` STRING(MAX),`last_name` STRING(MAX),`full_name` STRING(MAX),`active` BOOL) PRIMARY KEY (`id`)" ∧
    createTableDDL albumModel =
      "CREATE TABLE `albums` (`id` INT64,`created_at` TIMESTAMP,`updated_at` TIMESTAMP,`deleted_at` TIMESTAMP,`title` STRING(MAX),`singer_id` INT64,CONSTRAINT `fk_albums_singer` FOREIGN KEY (`singer_id`) REFERENCES `singers`(`id`)) PRIMARY KEY (`id`)" :=
  ⟨rfl, rfl, rfl, rfl, fun _ => rfl, fun m => (m.fields.length_map columnClause),
   fun _ => rfl, by decide, by decide⟩

/-- C2: `AutoMigrate` sends all DDL in a single batched
`UpdateDatabaseDdl` request whose statements decompose, for every model
position, into the statements of the earlier models, then that model's
`CREATE TABLE` statement immediately followed by its `CREATE INDEX`
statements, then the statements of the later models; on the mock-server
test's two models the request holds exactly the 4 fixture statements. -/
theorem auto_migrate_single_batch :
    (∀ ms : List Model, (autoMigrate ms).length = 1) ∧
    (∀ (ms : List Model) (n : Nat) (h : n < ms.length),
      ddlStatements ms =
        ddlStatements (ms.take n) ++
          (createTableDDL (ms.get ⟨n, h⟩) ::
            (ms.get ⟨n, h⟩).indexes.map (createIndexDDL (ms.get ⟨n, h⟩))) ++
          ddlStatements (ms.drop (n + 1))) ∧
    autoMigrate [singerModel, albumModel] =
      [⟨["CREATE TABLE `singers` (`id` INT64,`created_at` TIMESTAMP,`updated_at` TIMESTAMP,`deleted_at` TIMESTAMP,`first_name` STRING(MAX),`last_name` STRING(MAX),`full_name` STRING(MAX),`active` BOOL) PRIMARY KEY (`id`)",
         "CREATE INDEX `idx_singers_deleted_at` ON `singers`(`deleted_at`)",
         "CREATE TABLE `albums` (`id` INT64,`created_at` TIMESTAMP,`updated_at` TIMESTAMP,`deleted_at` TIMESTAMP,`title` STRING(MAX),`singer_id` INT64,CONSTRAINT `fk_albums_singer` FOREIGN KEY (`singer_id`) REFERENCES `singers`(`id`)) PRIMARY KEY (`id`)",
         "CREATE INDEX `idx_albums_deleted_at` ON `albums`(`deleted_at`)"]⟩] ∧
    (ddlStatements [singerModel, albumModel]).length = 4 := by
  refine ⟨fun _ => rfl, ?_, by decide, by decide⟩
  intro ms n h
  conv_lhs => rw [ddlStatements, ← List.take_append_drop n ms,
    List.drop_eq_getElem_cons h]
  rw [List.map_append, List.map_cons, List.flatten_append, List.flatten_cons]
  simp only [ddlStatements, modelStatements, List.get_eq_getElem,
    List.append_assoc, List.cons_append, List.nil_append]

/-- Witness for C2 at the mock-server test's two models, position 1. -/
theorem auto_migrate_single_batch_witness :
    ddlStatements [singerModel, albumModel] =
      ddlStatements ([singerModel, albumModel].take 1) ++
        (createTableDDL ([singerModel, albumModel].get ⟨1, by decide⟩) ::
          ([singerModel, albumModel].get ⟨1, by decide⟩).indexes.map
            (createIndexDDL ([singerModel, albumModel].get ⟨1, by decide⟩))) ++
        ddlStatements ([singerModel, albumModel].drop 2) :=
  auto_migrate_single_batch.2.1 [singerModel, albumModel] 1 (by decide)

/-- C5: every error of the underlying client library or the ORM is
returned to the caller unchanged, and a query whose context deadline
expires surfaces an error on which `errors.Is(err,
context.DeadlineExceeded)` holds. -/
theorem adapter_error_passthrough :
    (∀ (α : Type) (res : Except GoError α), adapterExec res = res) ∧
    (∀ (α : Type) (e : GoError),
      adapterExec (α := α) (Except.error e) = Except.error e) ∧
    (∀ (α : Type) (e : GoError), errorsIs e GoError.deadlineExceeded = true →
      ∃ surfaced, adapterExec (α := α) (Except.error e) = Except.error surfaced ∧
        errorsIs surfaced GoError.deadlineExceeded = true) :=
  ⟨fun _ _ => rfl, fun _ _ => rfl, fun _ e h => ⟨e, rfl, h⟩⟩

/-- Witness for C5: a deadline-exceeded error wrapped by the client
surfaces unchanged and still satisfies `errors.Is`. -/
theorem adapter_error_passthrough_witness :
    ∃ surfaced,
      adapterExec (α := Unit)
          (Except.error (GoError.wrapped "query failed" GoError.deadlineExceeded)) =
        Except.error surfaced ∧
      errorsIs surfaced GoError.deadlineExceeded = true :=
  adapter_error_passthrough.2.2 Unit
    (GoError.wrapped "query failed" GoError.deadlineExceeded) (by decide)

/-- C6: every `Create` call carrying an `OnConflict` clause returns an
error rather than inserting or updating the row: the result is an error
and no table state is produced. -/
theorem create_on_conflict_errors (db : List Nat) (stmt : CreateStatement)
    (h : stmt.hasOnConflict = true) :
    createWithClauses db stmt =
      Except.error (GoError.status 9 "OnConflict clauses are not supported") := by
  simp [createWithClauses, h]

/-- Witness for C6 at a concrete statement with an OnConflict clause. -/
theorem create_on_conflict_errors_witness :
    createWithClauses [] ⟨true, 1⟩ =
      Except.error (GoError.status 9 "OnConflict clauses are not supported") :=
  create_on_conflict_errors [] ⟨true, 1⟩ rfl

/-- C7: opening with `Config(DriverName: "spanner", DSN: d)` and
`gorm.Config(PrepareStmt: true)` succeeds, honors the preparation flag,
and every subsequent statement is directed to the database `d`. -/
theorem open_spanner_connection (d : String) :
    ∃ conn : Connection,
      gormOpen ⟨"spanner", d⟩ ⟨true⟩ = Except.ok conn ∧
      conn.prepareStmt = true ∧
      ∀ stmt : String, statementTarget conn stmt = d :=
  ⟨⟨"spanner", d, true⟩, rfl, rfl, fun _ => rfl⟩

end SpannerGorm
